import Mathlib

/-!
Shallow embedding of the `intrepid` PID controller library (`src/lib.rs`).

Real-valued quantities (Rust `f64`) are modelled as exact rationals `ℚ`,
matching the exact-arithmetic reading of the specification.  The Rust
default `max_output_value = std::f64::MAX` is modelled by the exact value
of `f64::MAX`, namely `(2^53 - 1) * 2^971`.  Fallible construction
(`Result<Controller, String>`) is modelled by `Except String Controller`.

A second, minimal embedding over an IEEE-flavoured value type `F64`
(with NaN and infinities) is used for the one claim about non-finite
gains: the builder's validation performs only `== 0.0` comparisons, so
its behaviour on non-finite values is fully determined by IEEE equality,
which `F64.eqZero` captures (NaN and the infinities never compare equal
to zero).
-/

namespace Intrepid

/-- Exact value of Rust `std::f64::MAX`, the default `max_output_value`
set by `ControllerBuilder::new_with_target` (`src/lib.rs` line 19). -/
def f64MAX : ℚ := (2 ^ 53 - 1) * 2 ^ 971

/-- The live controller (`struct Controller`, `src/lib.rs` lines 65-75). -/
structure Controller where
  kp : ℚ
  ki : ℚ
  kd : ℚ
  target : ℚ
  max_output_value : ℚ
  derivative_on_measurement : Bool
  sum_error : ℚ
  last_error : ℚ
  last_input : ℚ
deriving DecidableEq

/-- The configuration builder (`struct ControllerBuilder`, lines 3-10). -/
structure ControllerBuilder where
  kp : ℚ
  ki : ℚ
  kd : ℚ
  target : ℚ
  max_output_value : ℚ
  derivative_on_measurement : Bool
deriving DecidableEq

/-- `ControllerBuilder::new_with_target` (lines 13-22). -/
def ControllerBuilder.new_with_target (target : ℚ) : ControllerBuilder :=
  { kp := 0, ki := 0, kd := 0, target := target,
    max_output_value := f64MAX, derivative_on_measurement := false }

/-- `ControllerBuilder::with_p_gain` (lines 24-27). -/
def ControllerBuilder.with_p_gain (b : ControllerBuilder) (kp : ℚ) : ControllerBuilder :=
  { b with kp := kp }

/-- `ControllerBuilder::with_d_gain` (lines 29-32). -/
def ControllerBuilder.with_d_gain (b : ControllerBuilder) (kd : ℚ) : ControllerBuilder :=
  { b with kd := kd }

/-- `ControllerBuilder::with_i_gain` (lines 34-37). -/
def ControllerBuilder.with_i_gain (b : ControllerBuilder) (ki : ℚ) : ControllerBuilder :=
  { b with ki := ki }

/-- `ControllerBuilder::with_derivative_on_measurement` (lines 39-42). -/
def ControllerBuilder.with_derivative_on_measurement (b : ControllerBuilder) : ControllerBuilder :=
  { b with derivative_on_measurement := true }

/-- `ControllerBuilder::with_max_output_value` (lines 44-47). -/
def ControllerBuilder.with_max_output_value (b : ControllerBuilder) (m : ℚ) : ControllerBuilder :=
  { b with max_output_value := m }

/-- `Controller::new` (lines 78-97): zeroes the three running-state fields. -/
def Controller.new (kp ki kd target : ℚ) (derivative_on_measurement : Bool)
    (max_output_value : ℚ) : Controller :=
  { kp := kp, ki := ki, kd := kd, target := target,
    derivative_on_measurement := derivative_on_measurement,
    max_output_value := max_output_value,
    sum_error := 0, last_error := 0, last_input := 0 }

/-- `ControllerBuilder::build` (lines 49-62). -/
def ControllerBuilder.build (b : ControllerBuilder) : Except String Controller :=
  if b.kp = 0 ∧ b.ki = 0 ∧ b.kd = 0 then
    Except.error "All gains cannot be zero at the same time"
  else
    Except.ok (Controller.new b.kp b.ki b.kd b.target b.derivative_on_measurement
      b.max_output_value)

/-- `Controller::set_target` (lines 99-102). -/
def Controller.set_target (c : Controller) (target : ℚ) : Controller :=
  { c with target := target }

/-- `Controller::reset` (lines 104-109). -/
def Controller.reset (c : Controller) : Controller :=
  { c with last_error := 0, last_input := 0, sum_error := 0 }

/-- The `derivative_error` conditional inside `Controller::compute`
(lines 114-120), with the mode flag and the state it reads passed
explicitly.  `current_error` denotes `target - input` at the call site. -/
def derivative_error (derivative_on_measurement : Bool)
    (last_input last_error input current_error time_elapsed : ℚ) : ℚ :=
  if time_elapsed = 0 then 0
  else if derivative_on_measurement then (input - last_input) / time_elapsed
  else (current_error - last_error) / time_elapsed

/-- `Controller::compute` (lines 111-137), with the mutation of `self`
made explicit: the result is the updated controller paired with the
returned output. -/
def Controller.compute (c : Controller) (input time_elapsed : ℚ) : Controller × ℚ :=
  let current_error := c.target - input
  let current_sum_error := c.sum_error + current_error * time_elapsed
  let d_err := derivative_error c.derivative_on_measurement c.last_input c.last_error
    input current_error time_elapsed
  let p_term := c.kp * current_error
  let i_term := c.ki * current_sum_error
  let d_term := c.kd * d_err
  let output := p_term + i_term + d_term
  ({ c with last_error := current_error, last_input := input, sum_error := current_sum_error },
    if output > c.max_output_value then c.max_output_value else output)

/-- The combined pre-clamp output of `compute` (the `output` local of
lines 127-131), recomputed from the same state. -/
def Controller.rawOutput (c : Controller) (input time_elapsed : ℚ) : ℚ :=
  let current_error := c.target - input
  let current_sum_error := c.sum_error + current_error * time_elapsed
  let d_err := derivative_error c.derivative_on_measurement c.last_input c.last_error
    input current_error time_elapsed
  c.kp * current_error + c.ki * current_sum_error + c.kd * d_err

/-- Run a list of `(input, time_elapsed)` calls through `compute`,
collecting the outputs. -/
def Controller.computeSeq (c : Controller) (calls : List (ℚ × ℚ)) : Controller × List ℚ :=
  match calls with
  | [] => (c, [])
  | (m, t) :: rest =>
    let r := c.compute m t
    let rr := r.1.computeSeq rest
    (rr.1, r.2 :: rr.2)

/-- State reached after `k` identical `compute (m, t)` calls. -/
def Controller.iterate (c : Controller) (m t : ℚ) : Nat → Controller
  | 0 => c
  | Nat.succ k => ((c.iterate m t k).compute m t).1

/-- IEEE-754 double values, sufficient for the builder's validation:
NaN, the two infinities, and finite values (modelled exactly). -/
inductive F64 where
  | nan : F64
  | inf : F64
  | neginf : F64
  | fin : ℚ → F64
deriving DecidableEq

/-- IEEE-754 comparison `v == 0.0`: true exactly on finite zero (both
IEEE zeroes collapse to the rational `0`); NaN and the infinities never
compare equal to `0.0`. -/
def F64.eqZero : F64 → Bool
  | F64.fin v => decide (v = 0)
  | _ => false

/-- The configuration builder over IEEE values (same fields as
`ControllerBuilder`). -/
structure ControllerBuilderF where
  kp : F64
  ki : F64
  kd : F64
  target : F64
  max_output_value : F64
  derivative_on_measurement : Bool
deriving DecidableEq

/-- The controller over IEEE values (same fields as `Controller`). -/
structure ControllerF where
  kp : F64
  ki : F64
  kd : F64
  target : F64
  max_output_value : F64
  derivative_on_measurement : Bool
  sum_error : F64
  last_error : F64
  last_input : F64
deriving DecidableEq

/-- `ControllerBuilder::new_with_target` over IEEE values. -/
def ControllerBuilderF.new_with_target (target : F64) : ControllerBuilderF :=
  { kp := F64.fin 0, ki := F64.fin 0, kd := F64.fin 0, target := target,
    max_output_value := F64.fin f64MAX, derivative_on_measurement := false }

/-- `ControllerBuilder::build` over IEEE values (lines 49-62): the guard
`self.kp == 0.0 && self.ki == 0.0 && self.kd == 0.0` uses IEEE equality
against the literal `0.0` and nothing else. -/
def ControllerBuilderF.build (b : ControllerBuilderF) : Except String ControllerF :=
  if b.kp.eqZero && b.ki.eqZero && b.kd.eqZero then
    Except.error "All gains cannot be zero at the same time"
  else
    Except.ok
      { kp := b.kp, ki := b.ki, kd := b.kd, target := b.target,
        derivative_on_measurement := b.derivative_on_measurement,
        max_output_value := b.max_output_value,
        sum_error := F64.fin 0, last_error := F64.fin 0, last_input := F64.fin 0 }

theorem compute_snd (c : Controller) (input time_elapsed : ℚ) :
    (c.compute input time_elapsed).2 =
      if c.rawOutput input time_elapsed > c.max_output_value then c.max_output_value
      else c.rawOutput input time_elapsed := rfl

/-- Claim C1: `compute(measurement, elapsed_time)` returns the clamped sum
`kp*error + ki*accumulated_error_new + kd*derivative` with
`error = target - measurement` and
`accumulated_error_new = sum_error + error*elapsed_time`, and it
unconditionally stores `last_error = error`, `last_input = measurement`
and `sum_error = accumulated_error_new` (configuration untouched) —
also on calls whose output is clamped to `max_output_value`. -/
theorem compute_formula_and_state (c : Controller) (input time_elapsed : ℚ) :
    ((c.compute input time_elapsed).2 =
      if c.kp * (c.target - input)
          + c.ki * (c.sum_error + (c.target - input) * time_elapsed)
          + c.kd * derivative_error c.derivative_on_measurement c.last_input c.last_error
              input (c.target - input) time_elapsed
          > c.max_output_value
      then c.max_output_value
      else c.kp * (c.target - input)
          + c.ki * (c.sum_error + (c.target - input) * time_elapsed)
          + c.kd * derivative_error c.derivative_on_measurement c.last_input c.last_error
              input (c.target - input) time_elapsed) ∧
    (c.compute input time_elapsed).1.last_error = c.target - input ∧
    (c.compute input time_elapsed).1.last_input = input ∧
    (c.compute input time_elapsed).1.sum_error
      = c.sum_error + (c.target - input) * time_elapsed ∧
    (c.compute input time_elapsed).1.kp = c.kp ∧
    (c.compute input time_elapsed).1.ki = c.ki ∧
    (c.compute input time_elapsed).1.kd = c.kd ∧
    (c.compute input time_elapsed).1.target = c.target ∧
    (c.compute input time_elapsed).1.derivative_on_measurement
      = c.derivative_on_measurement ∧
    (c.compute input time_elapsed).1.max_output_value = c.max_output_value :=
  ⟨rfl, rfl, rfl, rfl, rfl, rfl, rfl, rfl, rfl, rfl⟩

/-- Claim C2: `build()` fails exactly when all three gains are `0.0`, and
otherwise yields a controller carrying the builder's gains, target,
output bound and derivative mode, with the three running-state fields
zeroed. -/
theorem build_err_iff_all_gains_zero (b : ControllerBuilder) :
    ((∃ msg, b.build = Except.error msg) ↔ b.kp = 0 ∧ b.ki = 0 ∧ b.kd = 0) ∧
    (¬(b.kp = 0 ∧ b.ki = 0 ∧ b.kd = 0) →
      b.build = Except.ok
        { kp := b.kp, ki := b.ki, kd := b.kd, target := b.target,
          max_output_value := b.max_output_value,
          derivative_on_measurement := b.derivative_on_measurement,
          sum_error := 0, last_error := 0, last_input := 0 }) := by
  constructor
  · constructor
    · rintro ⟨msg, h⟩
      by_cases hz : b.kp = 0 ∧ b.ki = 0 ∧ b.kd = 0
      · exact hz
      · simp [ControllerBuilder.build, hz] at h
    · intro hz
      exact ⟨"All gains cannot be zero at the same time",
        by simp [ControllerBuilder.build, hz]⟩
  · intro hz
    simp [ControllerBuilder.build, hz, Controller.new]

theorem build_err_iff_all_gains_zero_witness :
    ((ControllerBuilder.new_with_target 10).with_p_gain 1).build =
      Except.ok
        { kp := 1, ki := 0, kd := 0, target := 10, max_output_value := f64MAX,
          derivative_on_measurement := false,
          sum_error := 0, last_error := 0, last_input := 0 } := by
  have h := (build_err_iff_all_gains_zero
      ((ControllerBuilder.new_with_target 10).with_p_gain 1)).2
    (by norm_num [ControllerBuilder.new_with_target, ControllerBuilder.with_p_gain])
  simpa [ControllerBuilder.new_with_target, ControllerBuilder.with_p_gain] using h

/-- Claim C3: the returned value never exceeds `max_output_value`, and any
pre-clamp output at or below `max_output_value` — negative values
included — is returned unaltered (the clamp is upper-only). -/
theorem output_clamped_above_only (c : Controller) (input time_elapsed : ℚ) :
    (c.compute input time_elapsed).2 ≤ c.max_output_value ∧
    (c.rawOutput input time_elapsed ≤ c.max_output_value →
      (c.compute input time_elapsed).2 = c.rawOutput input time_elapsed) := by
  rw [compute_snd]
  constructor
  · by_cases h : c.rawOutput input time_elapsed > c.max_output_value
    · simp [h]
    · simp only [if_neg h]
      exact le_of_not_lt h
  · intro hle
    rw [if_neg (not_lt.mpr hle)]

theorem output_clamped_above_only_witness :
    (Controller.new 1 0 0 10 false f64MAX).rawOutput 20 1 ≤ f64MAX ∧
    ((Controller.new 1 0 0 10 false f64MAX).compute 20 1).2
      = (Controller.new 1 0 0 10 false f64MAX).rawOutput 20 1 := by
  have hle : (Controller.new 1 0 0 10 false f64MAX).rawOutput 20 1 ≤ f64MAX := by
    norm_num [Controller.rawOutput, Controller.new, derivative_error, f64MAX]
  exact ⟨hle, (output_clamped_above_only (Controller.new 1 0 0 10 false f64MAX) 20 1).2 hle⟩

/-- Claim C4: the derivative term is `0` whenever `elapsed_time = 0`,
whatever the mode; otherwise it is `(measurement - last_input)/elapsed`
in ON_MEASUREMENT mode and `(error - last_error)/elapsed` in ON_ERROR
mode, so the division only happens with a nonzero divisor. -/
theorem derivative_guarded (c : Controller) (input time_elapsed : ℚ) :
    (time_elapsed = 0 →
      derivative_error c.derivative_on_measurement c.last_input c.last_error
        input (c.target - input) time_elapsed = 0) ∧
    (time_elapsed ≠ 0 → c.derivative_on_measurement = true →
      derivative_error c.derivative_on_measurement c.last_input c.last_error
        input (c.target - input) time_elapsed = (input - c.last_input) / time_elapsed) ∧
    (time_elapsed ≠ 0 → c.derivative_on_measurement = false →
      derivative_error c.derivative_on_measurement c.last_input c.last_error
        input (c.target - input) time_elapsed
        = ((c.target - input) - c.last_error) / time_elapsed) := by
  refine ⟨fun ht => ?_, fun ht hm => ?_, fun ht hm => ?_⟩
  · simp [derivative_error, ht]
  · simp [derivative_error, ht, hm]
  · simp [derivative_error, ht, hm]

theorem derivative_guarded_witness :
    derivative_error false 3 7 2 (10 - 2) 0 = 0 ∧
    derivative_error true 3 7 2 (10 - 2) 1 = (2 - 3) / 1 ∧
    derivative_error false 3 7 2 (10 - 2) 1 = ((10 - 2) - 7) / 1 := by
  refine ⟨?_, ?_, ?_⟩
  · exact (derivative_guarded ⟨0, 0, 1 / 2, 10, f64MAX, false, 5, 7, 3⟩ 2 0).1 rfl
  · exact (derivative_guarded ⟨0, 0, 1 / 2, 10, f64MAX, true, 5, 7, 3⟩ 2 1).2.1
      (by norm_num) rfl
  · exact (derivative_guarded ⟨0, 0, 1 / 2, 10, f64MAX, false, 5, 7, 3⟩ 2 1).2.2
      (by norm_num) rfl

theorem iterate_config_and_sum (c : Controller) (m t : ℚ) (k : ℕ) :
    (c.iterate m t k).kp = c.kp ∧ (c.iterate m t k).ki = c.ki ∧
    (c.iterate m t k).kd = c.kd ∧ (c.iterate m t k).target = c.target ∧
    (c.iterate m t k).derivative_on_measurement = c.derivative_on_measurement ∧
    (c.iterate m t k).max_output_value = c.max_output_value ∧
    (c.iterate m t k).sum_error = c.sum_error + (c.target - m) * t * k := by
  induction k with
  | zero => exact ⟨rfl, rfl, rfl, rfl, rfl, rfl, by simp [Controller.iterate]⟩
  | succ k ih =>
    obtain ⟨h1, h2, h3, h4, h5, h6, h7⟩ := ih
    refine ⟨h1, h2, h3, h4, h5, h6, ?_⟩
    have hstep : (c.iterate m t (k + 1)).sum_error
        = (c.iterate m t k).sum_error + ((c.iterate m t k).target - m) * t := rfl
    rw [hstep, h7, h4]
    push_cast
    ring

theorem computeSeq_config (c : Controller) (calls : List (ℚ × ℚ)) :
    (c.computeSeq calls).1.kp = c.kp ∧ (c.computeSeq calls).1.ki = c.ki ∧
    (c.computeSeq calls).1.kd = c.kd ∧ (c.computeSeq calls).1.target = c.target ∧
    (c.computeSeq calls).1.derivative_on_measurement = c.derivative_on_measurement ∧
    (c.computeSeq calls).1.max_output_value = c.max_output_value := by
  induction calls generalizing c with
  | nil => exact ⟨rfl, rfl, rfl, rfl, rfl, rfl⟩
  | cons p rest ih =>
    obtain ⟨m, t⟩ := p
    obtain ⟨h1, h2, h3, h4, h5, h6⟩ := ih ((c.compute m t).1)
    exact ⟨h1, h2, h3, h4, h5, h6⟩

/-- Claim C5 counterexample: with `target = 1`, `integral_gain = f64::MAX`
(nonzero, so `build` succeeds) and identical calls `compute(0, 1)`, the
second call returns `max_output_value = f64::MAX` — the clamp fires —
whereas the claim's formula `g*(target-measurement)*t*n` demands
`f64::MAX * 2`. -/
theorem pure_integral_claim_counterexample :
    ((ControllerBuilder.new_with_target 1).with_i_gain f64MAX).build
      = Except.ok (Controller.new 0 f64MAX 0 1 false f64MAX) ∧
    (((Controller.new 0 f64MAX 0 1 false f64MAX).iterate 0 1 1).compute 0 1).2 = f64MAX ∧
    f64MAX * (1 - 0) * 1 * 2 ≠ f64MAX := by
  refine ⟨?_, ?_, by norm_num [f64MAX]⟩
  · have hne : ¬((0 : ℚ) = 0 ∧ f64MAX = 0 ∧ (0 : ℚ) = 0) := by
      norm_num [f64MAX]
    simpa [ControllerBuilder.new_with_target, ControllerBuilder.with_i_gain,
      ControllerBuilder.build, Controller.new] using hne
  · norm_num [Controller.iterate, Controller.compute, Controller.new,
      derivative_error, f64MAX]

/-- Claim C5 (amended): for a controller built with only
`integral_gain = g` (`g ≠ 0`), the n-th identical call `compute(m, t)`
(`n ≥ 1`) returns exactly `g*(target - m)*t*n` provided that value does
not exceed the default `max_output_value = f64::MAX`; in the concrete
scenario (target 10, g = 1/2, calls `compute(2, 1)`) the first two calls
return 4 and 8. -/
theorem pure_integral_linear_growth (g tgt m t : ℚ) (n : ℕ) (hg : g ≠ 0) (hn : 1 ≤ n)
    (hle : g * ((tgt - m) * t * n) ≤ f64MAX) :
    ((ControllerBuilder.new_with_target tgt).with_i_gain g).build
      = Except.ok (Controller.new 0 g 0 tgt false f64MAX) ∧
    (((Controller.new 0 g 0 tgt false f64MAX).iterate m t (n - 1)).compute m t).2
      = g * ((tgt - m) * t * n) := by
  constructor
  · have hne : ¬((0 : ℚ) = 0 ∧ g = 0 ∧ (0 : ℚ) = 0) := by
      intro h
      exact hg h.2.1
    simpa [ControllerBuilder.new_with_target, ControllerBuilder.with_i_gain,
      ControllerBuilder.build, Controller.new] using hne
  · obtain ⟨h1, h2, h3, h4, h5, h6, h7⟩ :=
      iterate_config_and_sum (Controller.new 0 g 0 tgt false f64MAX) m t (n - 1)
    have hraw : ((Controller.new 0 g 0 tgt false f64MAX).iterate m t (n - 1)).rawOutput m t
        = g * ((tgt - m) * t * n) := by
      simp only [Controller.rawOutput]
      simp only [h1, h2, h3, h4, h7]
      simp only [Controller.new]
      rw [Nat.cast_sub hn]
      push_cast
      ring
    rw [compute_snd, hraw, h6]
    have hmax : (Controller.new 0 g 0 tgt false f64MAX).max_output_value = f64MAX := rfl
    rw [hmax, if_neg (not_lt.mpr hle)]

theorem pure_integral_linear_growth_witness :
    (((Controller.new 0 (1 / 2) 0 10 false f64MAX).iterate 2 1 (1 - 1)).compute 2 1).2 = 4 ∧
    (((Controller.new 0 (1 / 2) 0 10 false f64MAX).iterate 2 1 (2 - 1)).compute 2 1).2 = 8 := by
  have h1 := pure_integral_linear_growth (1 / 2) 10 2 1 1 (by norm_num) le_rfl
    (by norm_num [f64MAX])
  have h2 := pure_integral_linear_growth (1 / 2) 10 2 1 2 (by norm_num) (by norm_num)
    (by norm_num [f64MAX])
  constructor
  · rw [h1.2]
    norm_num
  · rw [h2.2]
    norm_num

/-- Claim C6 counterexample: with `target = f64::MAX` and
`proportional_gain = 2`, the very first call `compute(0, 1)` has
pre-clamp output `2 * f64::MAX`, which exceeds the default
`max_output_value = f64::MAX`, so the call returns `f64::MAX` rather than
the claim's `g*(target - measurement) = 2*(f64::MAX - 0)`. -/
theorem pure_proportional_claim_counterexample :
    ((ControllerBuilder.new_with_target f64MAX).with_p_gain 2).build
      = Except.ok (Controller.new 2 0 0 f64MAX false f64MAX) ∧
    ((Controller.new 2 0 0 f64MAX false f64MAX).compute 0 1).2 = f64MAX ∧
    2 * (f64MAX - 0) ≠ f64MAX := by
  refine ⟨?_, ?_, by norm_num [f64MAX]⟩
  · norm_num [ControllerBuilder.new_with_target, ControllerBuilder.with_p_gain,
      ControllerBuilder.build, Controller.new, f64MAX]
  · norm_num [Controller.compute, Controller.new, derivative_error, f64MAX]

/-- Claim C6 (amended): for a controller built with only
`proportional_gain = g` (`g ≠ 0`), any call `compute(m, t)` — for any
`t` and after any prior call history — returns `g*(target - m)` provided
that value does not exceed the default `max_output_value = f64::MAX`;
in particular with target 10 and g = 1, `compute(2, 100)` returns 8 on a
first call and on a repeated identical call. -/
theorem pure_proportional_history_free (g tgt m t : ℚ) (hist : List (ℚ × ℚ))
    (hg : g ≠ 0) (hle : g * (tgt - m) ≤ f64MAX) :
    ((ControllerBuilder.new_with_target tgt).with_p_gain g).build
      = Except.ok (Controller.new g 0 0 tgt false f64MAX) ∧
    ((((Controller.new g 0 0 tgt false f64MAX).computeSeq hist).1).compute m t).2
      = g * (tgt - m) := by
  constructor
  · have hne : ¬(g = 0 ∧ (0 : ℚ) = 0 ∧ (0 : ℚ) = 0) := by
      intro h
      exact hg h.1
    simpa [ControllerBuilder.new_with_target, ControllerBuilder.with_p_gain,
      ControllerBuilder.build, Controller.new] using hne
  · obtain ⟨h1, h2, h3, h4, h5, h6⟩ :=
      computeSeq_config (Controller.new g 0 0 tgt false f64MAX) hist
    have hraw :
        (((Controller.new g 0 0 tgt false f64MAX).computeSeq hist).1).rawOutput m t
          = g * (tgt - m) := by
      simp only [Controller.rawOutput]
      simp only [h1, h2, h3, h4]
      simp only [Controller.new]
      ring
    rw [compute_snd, hraw, h6]
    have hmax : (Controller.new g 0 0 tgt false f64MAX).max_output_value = f64MAX := rfl
    rw [hmax, if_neg (not_lt.mpr hle)]

theorem pure_proportional_history_free_witness :
    ((((Controller.new 1 0 0 10 false f64MAX).computeSeq []).1).compute 2 100).2 = 8 ∧
    ((((Controller.new 1 0 0 10 false f64MAX).computeSeq [(2, 100)]).1).compute 2 100).2
      = 8 := by
  have h0 := pure_proportional_history_free 1 10 2 100 [] one_ne_zero
    (by norm_num [f64MAX])
  have h1 := pure_proportional_history_free 1 10 2 100 [(2, 100)] one_ne_zero
    (by norm_num [f64MAX])
  constructor
  · rw [h0.2]
    norm_num
  · rw [h1.2]
    norm_num

/-- Claim C7: `reset()` zeroes `sum_error`, `last_error` and `last_input`
while leaving the configuration untouched, and the reset controller
behaves exactly like a freshly constructed controller with the same
configuration on every subsequent call sequence. -/
theorem reset_equals_fresh (c : Controller) (calls : List (ℚ × ℚ)) :
    c.reset.kp = c.kp ∧ c.reset.ki = c.ki ∧ c.reset.kd = c.kd ∧
    c.reset.target = c.target ∧
    c.reset.derivative_on_measurement = c.derivative_on_measurement ∧
    c.reset.max_output_value = c.max_output_value ∧
    c.reset.sum_error = 0 ∧ c.reset.last_error = 0 ∧ c.reset.last_input = 0 ∧
    c.reset.computeSeq calls
      = (Controller.new c.kp c.ki c.kd c.target c.derivative_on_measurement
          c.max_output_value).computeSeq calls :=
  ⟨rfl, rfl, rfl, rfl, rfl, rfl, rfl, rfl, rfl, rfl⟩

/-- Claim C8: `set_target(new_target)` replaces only the `target` field;
the gains, the derivative mode, `max_output_value` and the three
running-state fields are all unchanged. -/
theorem set_target_only_target (c : Controller) (new_target : ℚ) :
    (c.set_target new_target).target = new_target ∧
    (c.set_target new_target).kp = c.kp ∧
    (c.set_target new_target).ki = c.ki ∧
    (c.set_target new_target).kd = c.kd ∧
    (c.set_target new_target).derivative_on_measurement = c.derivative_on_measurement ∧
    (c.set_target new_target).max_output_value = c.max_output_value ∧
    (c.set_target new_target).sum_error = c.sum_error ∧
    (c.set_target new_target).last_error = c.last_error ∧
    (c.set_target new_target).last_input = c.last_input :=
  ⟨rfl, rfl, rfl, rfl, rfl, rfl, rfl, rfl, rfl⟩

/-- Claim C9: after any `compute` call the stored state satisfies
`last_error = target - last_input`; and from any state satisfying that
invariant (with the same target still in effect), the ON_ERROR
derivative term is the exact negation of the ON_MEASUREMENT derivative
term of the same call. -/
theorem last_error_invariant_and_mode_negation (c : Controller) (input time_elapsed : ℚ) :
    ((c.compute input time_elapsed).1.last_error
      = (c.compute input time_elapsed).1.target
        - (c.compute input time_elapsed).1.last_input) ∧
    (c.last_error = c.target - c.last_input →
      derivative_error false c.last_input c.last_error input (c.target - input)
          time_elapsed
        = - derivative_error true c.last_input c.last_error input (c.target - input)
            time_elapsed) := by
  constructor
  · rfl
  · intro h
    by_cases ht : time_elapsed = 0
    · simp [derivative_error, ht]
    · simp only [derivative_error, if_neg ht, Bool.false_eq_true, if_false,
        if_true, ite_false, ite_true]
      rw [h]
      ring

theorem last_error_invariant_and_mode_negation_witness :
    derivative_error false 3 7 2 (10 - 2) 1
      = - derivative_error true 3 7 2 (10 - 2) 1 := by
  exact (last_error_invariant_and_mode_negation
    ⟨1, 0, 0, 10, f64MAX, false, 5, 7, 3⟩ 2 1).2 (by norm_num)

/-- Claim C10: the builder's validation is nothing but the exact
`== 0.0` check on the three gains, so non-finite gains pass it: with
`proportional_gain = NaN` (or `+∞`) and the other gains `0.0`, `build`
succeeds and yields a controller carrying the non-finite gain. -/
theorem build_accepts_nonfinite_gains :
    F64.eqZero F64.nan = false ∧ F64.eqZero F64.inf = false ∧
    ({ ControllerBuilderF.new_with_target (F64.fin 0) with
        kp := F64.nan } : ControllerBuilderF).build
      = Except.ok
        { kp := F64.nan, ki := F64.fin 0, kd := F64.fin 0, target := F64.fin 0,
          max_output_value := F64.fin f64MAX, derivative_on_measurement := false,
          sum_error := F64.fin 0, last_error := F64.fin 0, last_input := F64.fin 0 } ∧
    ({ ControllerBuilderF.new_with_target (F64.fin 0) with
        kp := F64.inf } : ControllerBuilderF).build
      = Except.ok
        { kp := F64.inf, ki := F64.fin 0, kd := F64.fin 0, target := F64.fin 0,
          max_output_value := F64.fin f64MAX, derivative_on_measurement := false,
          sum_error := F64.fin 0, last_error := F64.fin 0, last_input := F64.fin 0 } := by
  refine ⟨rfl, rfl, ?_, ?_⟩ <;>
    simp [ControllerBuilderF.build, ControllerBuilderF.new_with_target, F64.eqZero]

end Intrepid
